import Mathlib

/-!
Shallow embedding of the blog-post CRUD service:
the Post model (src/models/post.js), the six controller handlers
(the post controller source file), the models-module wiring
(src/models/index.js), the database config (src/config/database.js)
and the bootstrap (src/index.js).

Modelling conventions:
* A JSON request-body field is `Option (Option α)`: `none` is an absent
  (undefined) field, `some none` is an explicit JSON `null`,
  `some (some v)` is an explicit value.
* The `published` column of the model has no `allowNull: false`
  (src/models/post.js lines 81-85), so the stored value is nullable:
  `Option Bool`, where `none` is SQL NULL.
* Timestamps are a logical clock `now : Nat` on the store, incremented by
  every successful mutation; the storage layer assigns `createdAt`/
  `updatedAt` from it.
* Auto-increment primary keys: `nextId : Nat` on the store.
-/

/-- A stored row of the `posts` table (src/models/post.js).
`title`, `content`, `author` are `allowNull: false` columns, hence plain
strings; `published` has no null constraint, hence `Option Bool`. -/
structure Post where
  id : Nat
  title : String
  content : String
  author : String
  published : Option Bool
  createdAt : Nat
  updatedAt : Nat
deriving Repr, DecidableEq

/-- The storage layer state: the rows of the `posts` table (in insertion
order), the auto-increment counter and the logical clock. -/
structure Store where
  posts : List Post
  nextId : Nat
  now : Nat
deriving Repr, DecidableEq

/-- Response payloads produced by the handlers. -/
inductive Payload where
  | post (p : Post)
  | posts (l : List Post)
  | error (msg : String)
  | empty
deriving Repr, DecidableEq

/-- An HTTP response: status code and JSON payload. -/
structure Response where
  status : Nat
  body : Payload
deriving Repr, DecidableEq

/-- A string-valued request-body field: absent / null / string. -/
abbrev JField := Option (Option String)

/-- JavaScript truthiness of a destructured body field, as used by
`if (!title || !content || !author)` in createPost: `undefined`, `null`
and the empty string are falsy, every other string truthy. -/
def truthy : JField → Bool
  | some (some s) => decide (s ≠ "")
  | _ => false

/-- Sequelize validators for `title` (src/models/post.js lines 26-44):
`notNull`, `notEmpty`, `len [1, 200]`. A null value reports only the
`notNull` message; Sequelize collects every failing validator. -/
def titleErrors : Option String → List String
  | none => ["Title is required"]
  | some s =>
      (if s = "" then ["Title cannot be empty"] else []) ++
      (if s.length < 1 || 200 < s.length then
        ["Title must be between 1 and 200 characters"] else [])

/-- Sequelize validators for `content` (lines 47-61): `notNull`,
`notEmpty`. -/
def contentErrors : Option String → List String
  | none => ["Content is required"]
  | some s => if s = "" then ["Content cannot be empty"] else []

/-- Sequelize validators for `author` (lines 64-78): `notNull`,
`notEmpty`. -/
def authorErrors : Option String → List String
  | none => ["Author is required"]
  | some s => if s = "" then ["Author cannot be empty"] else []

/-- All model-level validation errors for a candidate row's string
columns. `published` has no validators. -/
def rowErrors (t c a : Option String) : List String :=
  titleErrors t ++ contentErrors c ++ authorErrors a

/-- `Post.findByPk id`: first stored row whose primary key matches. -/
def findByPk (st : Store) (id : Nat) : Option Post :=
  st.posts.find? (fun p => p.id = id)

/-- The body of a POST /api/posts request. The controller destructures
only `title`, `content`, `author`; `published` and `id` may be present
in the body but are never read. -/
structure CreateBody where
  title : JField
  content : JField
  author : JField
  published : Option (Option Bool)
  id : Option Nat
deriving Repr, DecidableEq

/-- createPost (controller lines 80-115): manual truthiness check on the
three destructured fields, then `Post.create({title, content, author})`;
`published` takes the model default `false`, `id` and the timestamps are
assigned by storage. Sequelize validation failure maps to 400 with the
messages joined by a comma; success returns 201 with the created row. -/
def createPost (st : Store) (b : CreateBody) : Response × Store :=
  if truthy b.title && truthy b.content && truthy b.author then
    let t := b.title.join
    let c := b.content.join
    let a := b.author.join
    let errs := rowErrors t c a
    if errs.isEmpty then
      let p : Post :=
        { id := st.nextId, title := t.getD "", content := c.getD "",
          author := a.getD "", published := some false,
          createdAt := st.now, updatedAt := st.now }
      (⟨201, .post p⟩,
       { posts := st.posts ++ [p], nextId := st.nextId + 1,
         now := st.now + 1 })
    else
      (⟨400, .error (String.intercalate ", " errs)⟩, st)
  else
    (⟨400, .error "All fields are required: title, content, author"⟩, st)

/-- getAllPosts (controller lines 20-33): `Post.findAll` ordered by
`createdAt` descending, returned with 200. -/
def getAllPosts (st : Store) : Response :=
  ⟨200, .posts (st.posts.mergeSort (fun a b => decide (b.createdAt ≤ a.createdAt)))⟩

/-- getPostById (controller lines 46-65): `findByPk`, 404 when absent,
200 with the row otherwise. -/
def getPostById (st : Store) (id : Nat) : Response :=
  match findByPk st id with
  | none => ⟨404, .error "Post not found"⟩
  | some p => ⟨200, .post p⟩

/-- The body of a PUT /api/posts/:id request. -/
structure UpdateBody where
  title : JField
  content : JField
  author : JField
  published : Option (Option Bool)
deriving Repr, DecidableEq

/-- updatePost (controller lines 132-169): 404 when the id does not
resolve; otherwise each body field that is not `undefined` replaces the
stored value and each absent field keeps it
(`title !== undefined ? title : post.title`, etc.). `post.update` runs
the model validators; failure maps to 400 and leaves the row unchanged,
success refreshes `updatedAt` and returns 200 with the updated row. -/
def updatePost (st : Store) (id : Nat) (b : UpdateBody) : Response × Store :=
  match findByPk st id with
  | none => (⟨404, .error "Post not found"⟩, st)
  | some p =>
      let nt : Option String := b.title.getD (some p.title)
      let nc : Option String := b.content.getD (some p.content)
      let na : Option String := b.author.getD (some p.author)
      let np : Option Bool := b.published.getD p.published
      let errs := rowErrors nt nc na
      if errs.isEmpty then
        let p' : Post :=
          { p with title := nt.getD "", content := nc.getD "",
                   author := na.getD "", published := np,
                   updatedAt := st.now }
        (⟨200, .post p'⟩,
         { st with posts := st.posts.map (fun q => if q.id = id then p' else q),
                   now := st.now + 1 })
      else
        (⟨400, .error (String.intercalate ", " errs)⟩, st)

/-- JavaScript `!post.published` on a nullable boolean column:
`null` and `false` negate to `true`, `true` to `false`. -/
def jsNot (x : Option Bool) : Bool := !(x.getD false)

/-- togglePublish (controller lines 182-207): 404 when the id does not
resolve; otherwise `post.update({published: !post.published})` — no
request body is consulted — then 200 with the updated row. -/
def togglePublish (st : Store) (id : Nat) : Response × Store :=
  match findByPk st id with
  | none => (⟨404, .error "Post not found"⟩, st)
  | some p =>
      let p' : Post :=
        { p with published := some (jsNot p.published), updatedAt := st.now }
      (⟨200, .post p'⟩,
       { st with posts := st.posts.map (fun q => if q.id = id then p' else q),
                 now := st.now + 1 })

/-- deletePost (controller lines 220-242): 404 when the id does not
resolve; otherwise `post.destroy()` removes the row and 204 No Content
is returned. -/
def deletePost (st : Store) (id : Nat) : Response × Store :=
  match findByPk st id with
  | none => (⟨404, .error "Post not found"⟩, st)
  | some _ =>
      (⟨204, .empty⟩,
       { st with posts := st.posts.filter (fun q => q.id ≠ id),
                 now := st.now + 1 })

/-- Store well-formedness maintained by the auto-increment key: every
stored row's id is below the counter. -/
def Store.WF (st : Store) : Bool :=
  st.posts.all (fun p => p.id < st.nextId)

/-!
Module wiring and bootstrap.

src/models/index.js ends with `module.export = { Post, syncDatabase }` —
`export`, not `exports` — so the module's real export object remains the
default empty object. Importers that destructure it
(`const { Post } = require('../models')` at the top of the controller,
`const { syncDatabase } = require('./models')` in src/index.js) receive
`undefined` bindings, modelled as `none`.
-/

/-- The `Post` binding obtained by the controller from the models module:
`undefined`, because of the `module.export` typo. -/
def modelsPostBinding : Option Unit := none

/-- The `syncDatabase` binding obtained by src/index.js from the models
module: `undefined`, because of the `module.export` typo. -/
def modelsSyncDatabaseBinding : Option Unit := none

/-- getAllPosts as actually wired: with an undefined `Post` binding the
call `Post.findAll` throws a TypeError, caught by the handler's catch
block, which responds 500. -/
def getAllPostsWired (st : Store) : Response :=
  match modelsPostBinding with
  | none => ⟨500, .error "Failed to fetch posts"⟩
  | some _ => getAllPosts st

/-- getPostById as actually wired: `Post.findByPk` throws on the
undefined binding, so the catch block responds 500. -/
def getPostByIdWired (st : Store) (id : Nat) : Response :=
  match modelsPostBinding with
  | none => ⟨500, .error "Failed to fetch post"⟩
  | some _ => getPostById st id

/-- createPost as actually wired: the manual truthiness validation runs
before any storage access, so an invalid body still gets 400; a valid
body reaches `Post.create`, which throws a TypeError (whose name is not
SequelizeValidationError), so the catch block responds 500. -/
def createPostWired (st : Store) (b : CreateBody) : Response × Store :=
  if truthy b.title && truthy b.content && truthy b.author then
    match modelsPostBinding with
    | none => (⟨500, .error "Failed to create post"⟩, st)
    | some _ => createPost st b
  else
    (⟨400, .error "All fields are required: title, content, author"⟩, st)

/-- updatePost as actually wired: `Post.findByPk` throws first, so every
request gets 500 and the store is untouched. -/
def updatePostWired (st : Store) (id : Nat) (b : UpdateBody) : Response × Store :=
  match modelsPostBinding with
  | none => (⟨500, .error "Failed to update post"⟩, st)
  | some _ => updatePost st id b

/-- togglePublish as actually wired: `Post.findByPk` throws first, so
every request gets 500 and the store is untouched. -/
def togglePublishWired (st : Store) (id : Nat) : Response × Store :=
  match modelsPostBinding with
  | none => (⟨500, .error "Failed to toggle publish status"⟩, st)
  | some _ => togglePublish st id

/-- deletePost as actually wired: `Post.findByPk` throws first, so every
request gets 500 and the store is untouched. -/
def deletePostWired (st : Store) (id : Nat) : Response × Store :=
  match modelsPostBinding with
  | none => (⟨500, .error "Failed to delete post"⟩, st)
  | some _ => deletePost st id

/-- Outcome of the bootstrap sequence in src/index.js. -/
inductive StartResult where
  | listening (port : Nat)
  | exited (code : Nat)
deriving Repr, DecidableEq

/-- testConnection (src/config/database.js): attempts
`sequelize.authenticate()` and, on failure, catches the error and only
logs it — it never rethrows, so it completes normally whether or not
the connection works. `dbOk` is whether authentication succeeds. -/
def testConnection (dbOk : Bool) : Except Unit Unit :=
  match dbOk with
  | true => .ok ()
  | false => .ok ()

/-- syncDatabase as defined in src/models/index.js: attempts
`sequelize.sync({alter: true})` and, on failure, catches the error and
only logs it — it never rethrows. `syncOk` is whether the sync
succeeds. (This function is unreachable through the module's exports;
see `modelsSyncDatabaseBinding`.) -/
def syncDatabase (syncOk : Bool) : Except Unit Unit :=
  match syncOk with
  | true => .ok ()
  | false => .ok ()

/-- startServer (src/index.js lines 76-95): awaits testConnection, then
calls the imported `syncDatabase` binding — calling an undefined binding
throws a TypeError — then `app.listen(PORT)`. Any exception in the try
block is caught and the process exits with code 1. -/
def startServer (dbOk syncOk : Bool) (port : Nat) : StartResult :=
  match testConnection dbOk with
  | .error _ => .exited 1
  | .ok _ =>
      match modelsSyncDatabaseBinding with
      | none => .exited 1
      | some _ =>
          match syncDatabase syncOk with
          | .error _ => .exited 1
          | .ok _ => .listening port

/-!
Helper lemmas shared between the claim theorems.
-/

/-- A non-empty string has positive length. -/
theorem String.length_pos_of_ne_empty {s : String} (h : s ≠ "") :
    0 < s.length := by
  cases s with
  | mk l =>
    cases l with
    | nil => exact absurd rfl h
    | cons x xs => simp [String.length]

/-- `find?` over an append skips a first block with no match. -/
theorem find?_append_of_none {α : Type} {p : α → Bool} {l₁ l₂ : List α}
    (h : l₁.find? p = none) : (l₁ ++ l₂).find? p = l₂.find? p := by
  rw [List.find?_append, h, Option.none_or]

/-- Pointwise replacement of the row matching an id: after mapping the
`if q.id = id then p' else q` substitution over a list whose first match
for the id exists, `find?` returns the replacement, provided the
replacement keeps the id. -/
theorem find?_map_replace (posts : List Post) (id : Nat) (p p' : Post)
    (h : posts.find? (fun q => q.id = id) = some p) (hid : p'.id = id) :
    (posts.map (fun q => if q.id = id then p' else q)).find?
      (fun q => q.id = id) = some p' := by
  induction posts with
  | nil => simp [List.find?] at h
  | cons q qs ih =>
      by_cases hq : q.id = id
      · simp [List.find?, hq, hid]
      · rw [List.find?_cons_of_neg _ (by simpa using hq)] at h
        simpa [List.find?, hq, hid] using ih h

/-- An empty title-validator result forces a non-empty string value. -/
theorem titleErrors_nil {t : Option String} (h : titleErrors t = []) :
    ∃ s, t = some s ∧ s ≠ "" := by
  cases t with
  | none => simp [titleErrors] at h
  | some s =>
      refine ⟨s, rfl, fun hs => ?_⟩
      subst hs
      simp [titleErrors, String.length] at h

/-- An empty content-validator result forces a non-empty string value. -/
theorem contentErrors_nil {t : Option String} (h : contentErrors t = []) :
    ∃ s, t = some s ∧ s ≠ "" := by
  cases t with
  | none => simp [contentErrors] at h
  | some s =>
      refine ⟨s, rfl, fun hs => ?_⟩
      subst hs
      simp [contentErrors] at h

/-- An empty author-validator result forces a non-empty string value. -/
theorem authorErrors_nil {t : Option String} (h : authorErrors t = []) :
    ∃ s, t = some s ∧ s ≠ "" := by
  cases t with
  | none => simp [authorErrors] at h
  | some s =>
      refine ⟨s, rfl, fun hs => ?_⟩
      subst hs
      simp [authorErrors] at h

/-- Splitting an empty combined validator result. -/
theorem rowErrors_nil {t c a : Option String} (h : rowErrors t c a = []) :
    titleErrors t = [] ∧ contentErrors c = [] ∧ authorErrors a = [] := by
  unfold rowErrors at h
  rcases List.append_eq_nil.mp h with ⟨h1, h2⟩
  rcases List.append_eq_nil.mp h1 with ⟨h3, h4⟩
  exact ⟨h3, h4, h2⟩

/-- Anatomy of a successful createPost: the created row carries the
storage-assigned id, validated non-empty strings, the default
`published = false`, and is appended to the table. -/
theorem createPost_success {st : Store} {b : CreateBody} {p : Post} {st' : Store}
    (h : createPost st b = (⟨201, .post p⟩, st')) :
    p.id = st.nextId ∧ p.title ≠ "" ∧ p.content ≠ "" ∧ p.author ≠ "" ∧
    p.published = some false ∧ st'.posts = st.posts ++ [p] := by
  unfold createPost at h
  split at h
  · dsimp only at h
    split at h
    · rename_i hcond herrs
      have h1 := congrArg (fun r => r.1.body) h
      dsimp only at h1
      have hp : p =
          { id := st.nextId, title := b.title.join.getD "",
            content := b.content.join.getD "", author := b.author.join.getD "",
            published := some false, createdAt := st.now,
            updatedAt := st.now } := by
        injection h1 with h2
        exact h2.symm
      have h3 := congrArg (fun r => r.2.posts) h
      dsimp only at h3
      have hst : st'.posts = st.posts ++ [p] := by
        rw [hp]
        exact h3.symm
      have hnil := List.isEmpty_iff.mp herrs
      obtain ⟨ht, hc, ha⟩ := rowErrors_nil hnil
      obtain ⟨ts, hts, htne⟩ := titleErrors_nil ht
      obtain ⟨cs, hcs, hcne⟩ := contentErrors_nil hc
      obtain ⟨as', has, hane⟩ := authorErrors_nil ha
      refine ⟨by rw [hp], ?_, ?_, ?_, by rw [hp], hst⟩
      · rw [hp]
        simp only [hts, Option.getD_some]
        exact htne
      · rw [hp]
        simp only [hcs, Option.getD_some]
        exact hcne
      · rw [hp]
        simp only [has, Option.getD_some]
        exact hane
    · exact absurd (congrArg (fun r => r.1.status) h) (by simp)
  · exact absurd (congrArg (fun r => r.1.status) h) (by simp)

/-- `all` is preserved by replacing the matching row with a row that
satisfies the predicate. -/
theorem all_map_replace {f : Post → Bool} {posts : List Post} {id : Nat}
    {p' : Post} (hall : posts.all f = true) (hp' : f p' = true) :
    (posts.map (fun q => if q.id = id then p' else q)).all f = true := by
  rw [List.all_eq_true] at hall ⊢
  intro x hx
  rcases List.mem_map.mp hx with ⟨q, hq, hqx⟩
  by_cases h : q.id = id
  · rw [if_pos h] at hqx; subst hqx; exact hp'
  · rw [if_neg h] at hqx; subst hqx; exact hall q hq

/-- `all` is preserved by filtering. -/
theorem all_filter_preserve {f g : Post → Bool} {posts : List Post}
    (hall : posts.all f = true) : (posts.filter g).all f = true := by
  rw [List.all_eq_true] at hall ⊢
  exact fun x hx => hall x (List.mem_of_mem_filter hx)

/-- C7: for every state of the store, List returns all stored posts
ordered by creation time descending (newest first), regardless of how
the store was populated. -/
theorem C7_list_ordered_by_created_desc (st : Store) :
    ∃ l, getAllPosts st = ⟨200, .posts l⟩ ∧ l.Perm st.posts ∧
      List.Sorted (fun a b : Post => b.createdAt ≤ a.createdAt) l := by
  refine ⟨_, rfl, List.mergeSort_perm _ _, ?_⟩
  have h := @List.sorted_mergeSort Post
    (fun a b : Post => decide (b.createdAt ≤ a.createdAt))
    (fun a b c hab hbc => by
      simp only [decide_eq_true_eq] at hab hbc ⊢; omega)
    (fun a b => by
      simp only [Bool.or_eq_true, decide_eq_true_eq]; omega)
    st.posts
  exact h.imp (fun hx => of_decide_eq_true hx)

/-- C8: if the startup connection test or the schema synchronization
fails, the process exits with failure status 1 and never reaches
listening. (In the code as shipped, startServer exits with status 1 on
every run, because the models module's `module.export` typo leaves the
imported syncDatabase binding undefined; the conditional claim follows.) -/
theorem C8_startup_failure_exits (dbOk syncOk : Bool) (port : Nat)
    (h : dbOk = false ∨ syncOk = false) :
    startServer dbOk syncOk port = .exited 1 ∧
    ∀ q, startServer dbOk syncOk port ≠ .listening q := by
  have hx : startServer dbOk syncOk port = .exited 1 := by
    cases dbOk <;> rfl
  exact ⟨hx, fun q hq => by rw [hx] at hq; exact StartResult.noConfusion hq⟩

/-- Witness for C8 at a concrete failing startup. -/
theorem C8_witness :
    ((false = false ∨ false = false) ∧
     (startServer false false 3000 = .exited 1 ∧
      ∀ q, startServer false false 3000 ≠ .listening q)) :=
  ⟨Or.inl rfl, C8_startup_failure_exits false false 3000 (Or.inl rfl)⟩

/-- C9: the models index module assigns to `module.export` instead of
`module.exports`, so importers receive undefined `Post` and
`syncDatabase` bindings: every handler request that reaches a storage
call is answered 500 with the handler's generic message and leaves the
store untouched, and the bootstrap always reaches process.exit(1). -/
theorem C9_models_export_typo_breaks_wiring :
    modelsPostBinding = none ∧ modelsSyncDatabaseBinding = none ∧
    (∀ st, getAllPostsWired st = ⟨500, .error "Failed to fetch posts"⟩) ∧
    (∀ st id, getPostByIdWired st id = ⟨500, .error "Failed to fetch post"⟩) ∧
    (∀ st b, (truthy b.title && truthy b.content && truthy b.author) = true →
      createPostWired st b = (⟨500, .error "Failed to create post"⟩, st)) ∧
    (∀ st id b, updatePostWired st id b
      = (⟨500, .error "Failed to update post"⟩, st)) ∧
    (∀ st id, togglePublishWired st id
      = (⟨500, .error "Failed to toggle publish status"⟩, st)) ∧
    (∀ st id, deletePostWired st id
      = (⟨500, .error "Failed to delete post"⟩, st)) ∧
    (∀ dbOk syncOk port, startServer dbOk syncOk port = .exited 1) := by
  refine ⟨rfl, rfl, fun st => rfl, fun st id => rfl, ?_,
    fun st id b => rfl, fun st id => rfl, fun st id => rfl,
    fun dbOk syncOk port => by cases dbOk <;> rfl⟩
  intro st b h
  simp [createPostWired, h, modelsPostBinding]

/-- Witness for C9's validated-create branch at a concrete body. -/
theorem C9_witness :
    ((truthy (some (some "A")) && truthy (some (some "B"))
        && truthy (some (some "C"))) = true) ∧
    createPostWired ⟨[], 1, 0⟩
        ⟨some (some "A"), some (some "B"), some (some "C"), none, none⟩
      = (⟨500, .error "Failed to create post"⟩, ⟨[], 1, 0⟩) :=
  ⟨by decide, C9_models_export_typo_breaks_wiring.2.2.2.2.1 ⟨[], 1, 0⟩
    ⟨some (some "A"), some (some "B"), some (some "C"), none, none⟩ (by decide)⟩

/-- C4: for every id that does not resolve to an existing post, GetByID,
Update, TogglePublish and Delete each return 404 Not Found and leave the
stored set of posts unchanged. -/
theorem C4_missing_id_404 (st : Store) (id : Nat) (b : UpdateBody)
    (h : findByPk st id = none) :
    getPostById st id = ⟨404, .error "Post not found"⟩ ∧
    updatePost st id b = (⟨404, .error "Post not found"⟩, st) ∧
    togglePublish st id = (⟨404, .error "Post not found"⟩, st) ∧
    deletePost st id = (⟨404, .error "Post not found"⟩, st) := by
  refine ⟨?_, ?_, ?_, ?_⟩ <;>
    simp [getPostById, updatePost, togglePublish, deletePost, h]

/-- Witness for C4 at a concrete empty store and id 7. -/
theorem C4_witness :
    findByPk ⟨[], 1, 0⟩ 7 = none ∧
    (getPostById ⟨[], 1, 0⟩ 7 = ⟨404, .error "Post not found"⟩ ∧
     updatePost ⟨[], 1, 0⟩ 7 ⟨none, none, none, none⟩
       = (⟨404, .error "Post not found"⟩, ⟨[], 1, 0⟩) ∧
     togglePublish ⟨[], 1, 0⟩ 7 = (⟨404, .error "Post not found"⟩, ⟨[], 1, 0⟩) ∧
     deletePost ⟨[], 1, 0⟩ 7 = (⟨404, .error "Post not found"⟩, ⟨[], 1, 0⟩)) :=
  ⟨by decide, C4_missing_id_404 ⟨[], 1, 0⟩ 7 ⟨none, none, none, none⟩ (by decide)⟩

/-- C5: every Create request in which title, content or author is missing
or the empty string is answered 400 by the manual validation, before any
storage call, and the store — in particular the List count — is
unchanged. -/
theorem C5_create_missing_or_empty_400 (st : Store) (b : CreateBody)
    (h : (b.title = none ∨ b.title = some (some "")) ∨
         (b.content = none ∨ b.content = some (some "")) ∨
         (b.author = none ∨ b.author = some (some ""))) :
    createPost st b
      = (⟨400, .error "All fields are required: title, content, author"⟩, st) ∧
    (createPost st b).2.posts.length = st.posts.length := by
  have hf : (truthy b.title && truthy b.content && truthy b.author) = false := by
    rcases h with (h | h) | (h | h) | (h | h) <;>
      simp [truthy, h, Bool.and_eq_false_iff]
  have he : createPost st b
      = (⟨400, .error "All fields are required: title, content, author"⟩, st) := by
    unfold createPost
    rw [hf]
    rfl
  exact ⟨he, by rw [he]⟩

/-- Witness for C5 at a concrete body with a missing title. -/
theorem C5_witness :
    ((none : JField) = none ∨ (none : JField) = some (some "")) ∧
    (createPost ⟨[], 1, 0⟩ ⟨none, some (some "B"), some (some "C"), none, none⟩
       = (⟨400, .error "All fields are required: title, content, author"⟩,
          ⟨[], 1, 0⟩) ∧
     (createPost ⟨[], 1, 0⟩
        ⟨none, some (some "B"), some (some "C"), none, none⟩).2.posts.length
       = ([] : List Post).length) :=
  ⟨Or.inl rfl,
   C5_create_missing_or_empty_400 ⟨[], 1, 0⟩
     ⟨none, some (some "B"), some (some "C"), none, none⟩ (Or.inl (Or.inl rfl))⟩

/-- C1: for every valid non-empty (title, content, author) triple,
Create followed by GetByID on the returned id yields a post whose
title, content and author equal the created values and whose published
field is false. -/
theorem C1_create_then_get (st : Store) (t c a : String)
    (hwf : st.WF = true) (ht : t ≠ "") (hc : c ≠ "") (ha : a ≠ "")
    (hlen : t.length ≤ 200) :
    ∃ p st',
      createPost st ⟨some (some t), some (some c), some (some a), none, none⟩
        = (⟨201, .post p⟩, st') ∧
      p.title = t ∧ p.content = c ∧ p.author = a ∧
      p.published = some false ∧
      getPostById st' p.id = ⟨200, .post p⟩ := by
  have htr : (truthy (some (some t)) && truthy (some (some c))
      && truthy (some (some a))) = true := by
    simp [truthy, ht, hc, ha]
  have hpos : 0 < t.length := String.length_pos_of_ne_empty ht
  have herr : rowErrors (some t) (some c) (some a) = [] := by
    have h1 : ¬ t.length < 1 := by omega
    have h2 : ¬ 200 < t.length := by omega
    simp [rowErrors, titleErrors, contentErrors, authorErrors,
      ht, hc, ha, h1, h2]
  refine ⟨{ id := st.nextId, title := t, content := c, author := a,
            published := some false, createdAt := st.now,
            updatedAt := st.now },
          { posts := st.posts ++
              [{ id := st.nextId, title := t, content := c, author := a,
                 published := some false, createdAt := st.now,
                 updatedAt := st.now }],
            nextId := st.nextId + 1, now := st.now + 1 },
          ?_, rfl, rfl, rfl, rfl, ?_⟩
  · unfold createPost
    rw [htr]
    simp [Option.join, herr]
  · have hw : ∀ x ∈ st.posts, x.id < st.nextId := by
      simpa [Store.WF, List.all_eq_true] using hwf
    have hnone : st.posts.find? (fun q => q.id = st.nextId) = none := by
      rw [List.find?_eq_none]
      intro x hx
      simp only [decide_eq_true_eq]
      intro heq
      have := hw x hx
      omega
    simp only [getPostById, findByPk]
    rw [find?_append_of_none hnone]
    simp [List.find?]

/-- Witness for C1 at the concrete triple ("A", "B", "C") on the empty
store. -/
theorem C1_witness :
    ((⟨[], 1, 0⟩ : Store).WF = true ∧ "A" ≠ "" ∧ "B" ≠ "" ∧ "C" ≠ "" ∧
     "A".length ≤ 200) ∧
    (∃ p st',
      createPost ⟨[], 1, 0⟩
          ⟨some (some "A"), some (some "B"), some (some "C"), none, none⟩
        = (⟨201, .post p⟩, st') ∧
      p.title = "A" ∧ p.content = "B" ∧ p.author = "C" ∧
      p.published = some false ∧
      getPostById st' p.id = ⟨200, .post p⟩) :=
  ⟨⟨by decide, by decide, by decide, by decide, by decide⟩,
   C1_create_then_get ⟨[], 1, 0⟩ "A" "B" "C"
     (by decide) (by decide) (by decide) (by decide) (by decide)⟩

/-- C2 counterexample: on a stored post (id 1, title "A") an Update body
with title explicitly present as the empty string does not overwrite the
stored title; the handler returns 400 and the stored title stays "A",
although the claim requires every explicitly present field to overwrite
the stored value. -/
theorem C2_counterexample :
    (updatePost ⟨[⟨1, "A", "B", "C", some false, 0, 0⟩], 2, 1⟩ 1
        ⟨some (some ""), none, none, none⟩).1.status = 400 ∧
    ((updatePost ⟨[⟨1, "A", "B", "C", some false, 0, 0⟩], 2, 1⟩ 1
        ⟨some (some ""), none, none, none⟩).2.posts.map Post.title)
      = ["A"] := by
  constructor
  · rfl
  · rfl

/-- The row produced by a successful updatePost: each body field that is
not undefined replaces the stored value, each absent field keeps it, and
`updatedAt` is refreshed (mirrors the `post.update({...})` argument in
the controller). -/
def mergePost (st : Store) (p : Post) (b : UpdateBody) : Post :=
  { p with
      title := (b.title.getD (some p.title)).getD "",
      content := (b.content.getD (some p.content)).getD "",
      author := (b.author.getD (some p.author)).getD "",
      published := b.published.getD p.published,
      updatedAt := st.now }

/-- The store produced by a successful updatePost. -/
def mergeStore (st : Store) (id : Nat) (p : Post) (b : UpdateBody) : Store :=
  { st with
      posts := st.posts.map (fun q => if q.id = id then mergePost st p b else q),
      now := st.now + 1 }

/-- A successful updatePost is exactly the merge of the body over the
stored row. -/
theorem updatePost_success (st : Store) (id : Nat) (b : UpdateBody) (p : Post)
    (hp : findByPk st id = some p)
    (hv : rowErrors (b.title.getD (some p.title))
            (b.content.getD (some p.content))
            (b.author.getD (some p.author)) = []) :
    updatePost st id b = (⟨200, .post (mergePost st p b)⟩, mergeStore st id p b) := by
  unfold updatePost mergePost mergeStore
  rw [hp]
  dsimp only
  rw [hv]
  rfl

/-- C2 (amended): for every existing post, each Update-body field that is
absent (undefined) keeps its prior stored value and each explicitly
present field — including an explicit falsy value such as
`published: false` on a currently-true post — overwrites the stored
value, provided the merged row passes the model validation; a present
value that fails validation (such as an empty or null title) yields 400
and overwrites nothing. -/
theorem C2_amended (st : Store) (id : Nat) (b : UpdateBody) (p : Post)
    (hp : findByPk st id = some p)
    (hv : rowErrors (b.title.getD (some p.title))
            (b.content.getD (some p.content))
            (b.author.getD (some p.author)) = []) :
    ∃ p' st', updatePost st id b = (⟨200, .post p'⟩, st') ∧
      findByPk st' id = some p' ∧
      (b.title = none → p'.title = p.title) ∧
      (∀ v, b.title = some (some v) → p'.title = v) ∧
      (b.content = none → p'.content = p.content) ∧
      (∀ v, b.content = some (some v) → p'.content = v) ∧
      (b.author = none → p'.author = p.author) ∧
      (∀ v, b.author = some (some v) → p'.author = v) ∧
      (b.published = none → p'.published = p.published) ∧
      (∀ v, b.published = some v → p'.published = v) := by
  have hid : p.id = id := by
    have := List.find?_some hp
    simpa using this
  refine ⟨mergePost st p b, mergeStore st id p b,
    updatePost_success st id b p hp hv, ?_, ?_, ?_, ?_, ?_, ?_, ?_, ?_, ?_⟩
  · exact find?_map_replace st.posts id p _ hp (by simp [mergePost, hid])
  · intro h
    simp [mergePost, h]
  · intro v h
    simp [mergePost, h]
  · intro h
    simp [mergePost, h]
  · intro v h
    simp [mergePost, h]
  · intro h
    simp [mergePost, h]
  · intro v h
    simp [mergePost, h]
  · intro h
    simp [mergePost, h]
  · intro v h
    simp [mergePost, h]

/-- Witness for C2 (amended) at a concrete published-only `false` update
of a currently-true post: the explicit false overwrites the stored true. -/
theorem C2_witness :
    (findByPk ⟨[⟨1, "A", "B", "C", some true, 0, 0⟩], 2, 1⟩ 1
       = some ⟨1, "A", "B", "C", some true, 0, 0⟩ ∧
     rowErrors (some "A") (some "B") (some "C") = []) ∧
    (∃ p' st',
       updatePost ⟨[⟨1, "A", "B", "C", some true, 0, 0⟩], 2, 1⟩ 1
           ⟨none, none, none, some (some false)⟩ = (⟨200, .post p'⟩, st') ∧
       findByPk st' 1 = some p' ∧
       ((none : JField) = none → p'.title = "A") ∧
       (∀ v, (none : JField) = some (some v) → p'.title = v) ∧
       ((none : JField) = none → p'.content = "B") ∧
       (∀ v, (none : JField) = some (some v) → p'.content = v) ∧
       ((none : JField) = none → p'.author = "C") ∧
       (∀ v, (none : JField) = some (some v) → p'.author = v) ∧
       ((some (some false) : Option (Option Bool)) = none →
          p'.published = some true) ∧
       (∀ v, (some (some false) : Option (Option Bool)) = some v →
          p'.published = v)) :=
  ⟨⟨by decide, by decide⟩,
   C2_amended ⟨[⟨1, "A", "B", "C", some true, 0, 0⟩], 2, 1⟩ 1
     ⟨none, none, none, some (some false)⟩ ⟨1, "A", "B", "C", some true, 0, 0⟩
     (by decide) (by decide)⟩

/-- Stored-row invariant: every row's title, content and author are
non-empty (non-null holds by the column types). -/
def StringsNonEmpty (st : Store) : Bool :=
  st.posts.all (fun p => decide (p.title ≠ "" ∧ p.content ≠ "" ∧ p.author ≠ ""))

/-- Stored-row invariant: every row's published is a defined boolean
(not SQL NULL). -/
def PublishedDefined (st : Store) : Bool :=
  st.posts.all (fun p => p.published.isSome)

/-- C3 counterexample: starting from the empty store, Create a valid post
and Update it with an explicit `published: null` body; the stored row's
published column becomes NULL, although the claim says no operation can
make published undefined — the model's published column lacks
`allowNull: false`, so the explicit null passes straight through. -/
theorem C3_counterexample :
    ((updatePost (createPost ⟨[], 1, 0⟩
         ⟨some (some "A"), some (some "B"), some (some "C"), none, none⟩).2 1
         ⟨none, none, none, some none⟩).2.posts.map Post.published = [none]) ∧
    PublishedDefined (updatePost (createPost ⟨[], 1, 0⟩
         ⟨some (some "A"), some (some "B"), some (some "C"), none, none⟩).2 1
         ⟨none, none, none, some none⟩).2 = false := by
  constructor
  · rfl
  · rfl

/-- The row invariants that do survive every operation: string fields
stay non-empty under all of Create/Update/TogglePublish/Delete, and
published stays a defined boolean under all of them except an Update
whose body explicitly carries `published: null`. -/
def InvariantPreserved (st : Store) : Prop :=
  (∀ b, StringsNonEmpty (createPost st b).2 = true) ∧
  (∀ id b, StringsNonEmpty (updatePost st id b).2 = true) ∧
  (∀ id, StringsNonEmpty (togglePublish st id).2 = true) ∧
  (∀ id, StringsNonEmpty (deletePost st id).2 = true) ∧
  (PublishedDefined st = true →
    (∀ b, PublishedDefined (createPost st b).2 = true) ∧
    (∀ id b, b.published ≠ some none →
       PublishedDefined (updatePost st id b).2 = true) ∧
    (∀ id, PublishedDefined (togglePublish st id).2 = true) ∧
    (∀ id, PublishedDefined (deletePost st id).2 = true))

/-- Either createPost leaves the store unchanged, or it succeeds with
some created row. -/
theorem createPost_cases (st : Store) (b : CreateBody) :
    (createPost st b).2 = st ∨
    ∃ p, createPost st b = (⟨201, .post p⟩, (createPost st b).2) := by
  unfold createPost
  split
  · dsimp only
    split
    · right; exact ⟨_, rfl⟩
    · left; rfl
  · left; rfl

/-- C3 (amended): for every store whose rows have non-empty string
fields, all four mutating operations preserve that; and when published
is defined everywhere, it stays defined under Create, TogglePublish,
Delete, and under Update except when the body explicitly carries
`published: null` (the published column lacks `allowNull: false`, so an
explicit null overwrites — see the counterexample). -/
theorem C3_amended (st : Store) (hs : StringsNonEmpty st = true) :
    InvariantPreserved st := by
  refine ⟨?_, ?_, ?_, ?_, ?_⟩
  · intro b
    rcases createPost_cases st b with h | ⟨p, h⟩
    · rw [h]; exact hs
    · obtain ⟨_, ht, hc, ha, _, hposts⟩ := createPost_success h
      unfold StringsNonEmpty at hs ⊢
      rw [hposts, List.all_append, Bool.and_eq_true]
      exact ⟨hs, by simp [ht, hc, ha]⟩
  · intro id b
    unfold updatePost
    cases hfind : findByPk st id
    case none => exact hs
    case some p =>
      dsimp only
      split
      · rename_i herrs
        obtain ⟨ht2, hc2, ha2⟩ := rowErrors_nil (List.isEmpty_iff.mp herrs)
        obtain ⟨ts, hts, htne⟩ := titleErrors_nil ht2
        obtain ⟨cs, hcs, hcne⟩ := contentErrors_nil hc2
        obtain ⟨as2, has2, hane⟩ := authorErrors_nil ha2
        unfold StringsNonEmpty at hs ⊢
        exact all_map_replace hs (by simp [hts, hcs, has2, htne, hcne, hane])
      · exact hs
  · intro id
    unfold togglePublish
    cases hfind : findByPk st id
    case none => exact hs
    case some p =>
      dsimp only
      unfold findByPk at hfind
      have hmem := List.mem_of_find?_eq_some hfind
      have hp := List.all_eq_true.mp hs _ hmem
      unfold StringsNonEmpty at hs ⊢
      exact all_map_replace hs (by simpa using hp)
  · intro id
    unfold deletePost
    cases hfind : findByPk st id
    case none => exact hs
    case some p =>
      unfold StringsNonEmpty at hs ⊢
      exact all_filter_preserve hs
  · intro hpub
    refine ⟨?_, ?_, ?_, ?_⟩
    · intro b
      rcases createPost_cases st b with h | ⟨p, h⟩
      · rw [h]; exact hpub
      · obtain ⟨_, _, _, _, hp5, hposts⟩ := createPost_success h
        unfold PublishedDefined at hpub ⊢
        rw [hposts, List.all_append, Bool.and_eq_true]
        exact ⟨hpub, by simp [hp5]⟩
    · intro id b hnn
      unfold updatePost
      cases hfind : findByPk st id
      case none => exact hpub
      case some p =>
        dsimp only
        split
        · unfold findByPk at hfind
          have hmem := List.mem_of_find?_eq_some hfind
          have hp := List.all_eq_true.mp hpub _ hmem
          unfold PublishedDefined at hpub ⊢
          refine all_map_replace hpub ?_
          cases hbp : b.published
          case none => simpa [hbp] using hp
          case some v =>
            cases v
            case none => exact absurd hbp hnn
            case some w => simp [hbp]
        · exact hpub
    · intro id
      unfold togglePublish
      cases hfind : findByPk st id
      case none => exact hpub
      case some p =>
        dsimp only
        unfold PublishedDefined at hpub ⊢
        exact all_map_replace hpub (by simp)
    · intro id
      unfold deletePost
      cases hfind : findByPk st id
      case none => exact hpub
      case some p =>
        unfold PublishedDefined at hpub ⊢
        exact all_filter_preserve hpub

/-- Witness for C3 (amended) at a concrete one-post store. -/
theorem C3_witness :
    StringsNonEmpty ⟨[⟨1, "A", "B", "C", some false, 0, 0⟩], 2, 1⟩ = true ∧
    InvariantPreserved ⟨[⟨1, "A", "B", "C", some false, 0, 0⟩], 2, 1⟩ :=
  ⟨by decide, C3_amended ⟨[⟨1, "A", "B", "C", some false, 0, 0⟩], 2, 1⟩ (by decide)⟩

/-- The row produced by togglePublish: published becomes the JavaScript
negation of its current value, updatedAt is refreshed. -/
def toggledPost (st : Store) (p : Post) : Post :=
  { p with published := some (jsNot p.published), updatedAt := st.now }

/-- The store produced by togglePublish on an existing row. -/
def toggledStore (st : Store) (id : Nat) (p : Post) : Store :=
  { st with
      posts := st.posts.map (fun q => if q.id = id then toggledPost st p else q),
      now := st.now + 1 }

/-- togglePublish on an existing row returns 200 with the toggled row
and stores it. -/
theorem togglePublish_success (st : Store) (id : Nat) (p : Post)
    (hp : findByPk st id = some p) :
    togglePublish st id
      = (⟨200, .post (toggledPost st p)⟩, toggledStore st id p) := by
  unfold togglePublish
  rw [hp]
  rfl

/-- C6 counterexample: a reachable post whose published column is NULL
(created, then updated with explicit `published: null`) breaks the
involution — two consecutive TogglePublish calls leave `published =
false`, not the original NULL, because `!null` is `true` in JavaScript. -/
theorem C6_counterexample :
    ((updatePost (createPost ⟨[], 1, 0⟩
        ⟨some (some "A"), some (some "B"), some (some "C"), none, none⟩).2 1
        ⟨none, none, none, some none⟩).2.posts.map Post.published = [none]) ∧
    (((togglePublish (togglePublish (updatePost (createPost ⟨[], 1, 0⟩
        ⟨some (some "A"), some (some "B"), some (some "C"), none, none⟩).2 1
        ⟨none, none, none, some none⟩).2 1).2 1).2.posts.map Post.published)
      = [some false]) :=
  ⟨rfl, rfl⟩

/-- What TogglePublish guarantees on an existing post whose published
value is the (non-null) boolean bv: the response row carries the logical
negation, no request body is consulted (togglePublish takes none), and a
second toggle restores bv on the stored row while leaving the other
fields unchanged. -/
def ToggleSpec (st : Store) (id : Nat) (p : Post) (bv : Bool) : Prop :=
  (∃ p₁, (togglePublish st id).1 = ⟨200, .post p₁⟩ ∧
     p₁.published = some (!bv)) ∧
  (∃ p₂, findByPk (togglePublish (togglePublish st id).2 id).2 id = some p₂ ∧
     p₂.published = some bv ∧ p₂.id = p.id ∧ p₂.title = p.title ∧
     p₂.content = p.content ∧ p₂.author = p.author)

/-- C6 (amended): for every existing post whose published column holds a
(non-null) boolean, TogglePublish sets published to its logical negation
without consulting any request body, and two consecutive TogglePublish
calls restore the original published value. (For the reachable NULL
published value the involution fails; see the counterexample.) -/
theorem C6_toggle_involution (st : Store) (id : Nat) (p : Post) (bv : Bool)
    (hp : findByPk st id = some p) (hb : p.published = some bv) :
    ToggleSpec st id p bv := by
  have hid : p.id = id := by simpa using List.find?_some hp
  have h1 := togglePublish_success st id p hp
  have hfind1 : findByPk (toggledStore st id p) id = some (toggledPost st p) :=
    find?_map_replace st.posts id p _ hp (by simp [toggledPost, hid])
  have h2 := togglePublish_success (toggledStore st id p) id
    (toggledPost st p) hfind1
  have hfind2 : findByPk (toggledStore (toggledStore st id p) id
      (toggledPost st p)) id
      = some (toggledPost (toggledStore st id p) (toggledPost st p)) :=
    find?_map_replace (toggledStore st id p).posts id (toggledPost st p) _
      hfind1 (by simp [toggledPost, hid])
  constructor
  · exact ⟨toggledPost st p, by rw [h1], by simp [toggledPost, jsNot, hb]⟩
  · refine ⟨toggledPost (toggledStore st id p) (toggledPost st p),
      ?_, ?_, ?_, ?_, ?_, ?_⟩
    · rw [h1]
      dsimp only
      rw [h2]
      dsimp only
      exact hfind2
    · simp [toggledPost, jsNot, hb]
    · simp [toggledPost]
    · simp [toggledPost]
    · simp [toggledPost]
    · simp [toggledPost]

/-- Witness for C6 (amended) at a concrete published-true post. -/
theorem C6_witness :
    (findByPk ⟨[⟨1, "A", "B", "C", some true, 0, 0⟩], 2, 1⟩ 1
       = some ⟨1, "A", "B", "C", some true, 0, 0⟩ ∧
     (⟨1, "A", "B", "C", some true, 0, 0⟩ : Post).published = some true) ∧
    ToggleSpec ⟨[⟨1, "A", "B", "C", some true, 0, 0⟩], 2, 1⟩ 1
      ⟨1, "A", "B", "C", some true, 0, 0⟩ true :=
  ⟨⟨by decide, by decide⟩,
   C6_toggle_involution ⟨[⟨1, "A", "B", "C", some true, 0, 0⟩], 2, 1⟩ 1
     ⟨1, "A", "B", "C", some true, 0, 0⟩ true (by decide) (by decide)⟩

/-- C10: any `published` or `id` field supplied in a Create request body
is ignored: the controller never reads them, so the result is unchanged
under replacing them, and a created post always has the model default
`published = false` and the storage-assigned auto-increment id. -/
theorem C10_create_ignores_body_published_and_id (st : Store) (b : CreateBody)
    (pub : Option (Option Bool)) (idv : Option Nat) :
    createPost st b = createPost st { b with published := pub, id := idv } ∧
    ∀ p st', createPost st b = (⟨201, .post p⟩, st') →
      p.published = some false ∧ p.id = st.nextId := by
  constructor
  · rfl
  · intro p st' h
    obtain ⟨h1, _, _, _, h5, _⟩ := createPost_success h
    exact ⟨h5, h1⟩

/-- Witness for C10 at a concrete body carrying junk published and id
fields. -/
theorem C10_witness :
    (createPost ⟨[], 1, 0⟩
        ⟨some (some "A"), some (some "B"), some (some "C"),
         some (some true), some 99⟩
      = (⟨201, .post ⟨1, "A", "B", "C", some false, 0, 0⟩⟩,
         ⟨[⟨1, "A", "B", "C", some false, 0, 0⟩], 2, 1⟩)) ∧
    ((⟨1, "A", "B", "C", some false, 0, 0⟩ : Post).published = some false ∧
     (⟨1, "A", "B", "C", some false, 0, 0⟩ : Post).id = 1) :=
  ⟨by decide,
   (C10_create_ignores_body_published_and_id ⟨[], 1, 0⟩
      ⟨some (some "A"), some (some "B"), some (some "C"),
       some (some true), some 99⟩ none none).2
     ⟨1, "A", "B", "C", some false, 0, 0⟩
     ⟨[⟨1, "A", "B", "C", some false, 0, 0⟩], 2, 1⟩ (by decide)⟩
